import Mathlib

/-!
# gput: configuration resolution and chunk-size parsing

A shallow embedding of `src/main.go` and `src/uploader.go`.

* Go `int`, `int64` values are `Int`; a `uint64` is a `Nat` read modulo `2^64`;
  `int` has 64 bits.
* The third-party libraries (`go-humanize`, `go-ini`, `pflag`, the S3 client) are
  not part of the sources.  What the program receives from them is a field of
  `Env`; every general theorem below holds for every value of these fields.
* `strconv.Atoi` and `fmt.Sprintf` belong to the Go standard library and are
  embedded directly.
-/

namespace Gput

/-! ## Constants (main.go, lines 36-43) -/

def MINIMUM_CHUNK_SIZE : Int := 5
def DEFAULT_CHUNK_SIZE : Int := 256
def DEFAULT_CONCURRENCY : Int := 64
def DEFAULT_MAX_RETRIES : Int := 3
def DEFAULT_S3_STORAGE_CLASS : String := "STANDARD_IA"
def DEFAULT_HOST : String := "s3.amazonaws.com"
def DEFAULT_QUIET : Bool := true
def DEFAULT_PROGRESS : Bool := false

/-! ## Standard-library pieces used by `ParseChunkSize` -/

/-- Value of a run of ASCII decimal digits, most significant first, continuing
from the accumulator `acc`; `none` as soon as a byte is not a digit. -/
def digitsValue : Nat → List Char → Option Nat
  | acc, [] => some acc
  | acc, c :: cs =>
    if c.isDigit then digitsValue (acc * 10 + (c.toNat - 48)) cs else none

/-- Unsigned part of `strconv.Atoi`: at least one digit, digits only. -/
def atoiMagnitude (cs : List Char) : Option Nat :=
  match cs with
  | [] => none
  | _ :: _ => digitsValue 0 cs

/-- Go `strconv.Atoi` on a 64-bit platform: an optional sign followed by one or
more decimal digits, the value within the range of `int`; `none` stands for a
returned error. -/
def Atoi (s : String) : Option Int :=
  match s.data with
  | [] => none
  | '-' :: cs =>
    match atoiMagnitude cs with
    | some n => if n ≤ 2 ^ 63 then some (-(n : Int)) else none
    | none => none
  | '+' :: cs =>
    match atoiMagnitude cs with
    | some n => if n < 2 ^ 63 then some (n : Int) else none
    | none => none
  | cs =>
    match atoiMagnitude cs with
    | some n => if n < 2 ^ 63 then some (n : Int) else none
    | none => none

/-- Go `fmt.Sprintf("%dMB", size)` where `size` is a `string` (main.go, line 125).
The verb `%d` does not apply to a string operand, so `fmt` writes the
bad-verb form `%!d(string=<operand>)` in place of a number. -/
def Sprintf_dMB_string (size : String) : String :=
  "%!d(string=" ++ size ++ ")MB"

/-- Go `fmt.Sprintf("%dMB", n)` where `n` is an integer (main.go, line 65). -/
def Sprintf_dMB_int (n : Int) : String :=
  toString n ++ "MB"

/-- Go conversion `int64(x)` of a `uint64` value `x`: the same 64 bits read in
two's complement. -/
def int64OfUint64 (x : Nat) : Int :=
  if x % 2 ^ 64 < 2 ^ 63 then ((x % 2 ^ 64 : Nat) : Int)
  else ((x % 2 ^ 64 : Nat) : Int) - 2 ^ 64

/-! ## ParseChunkSize (main.go, lines 119-136) -/

/-- The string handed to the byte parser at line 128: the input itself, or, when
`strconv.Atoi` accepts the input, the result of line 125. -/
def chunkSizeOperand (size : String) : String :=
  if (Atoi size).isSome then Sprintf_dMB_string size else size

/-- Embedding of `ParseChunkSize`.  `ParseBytes` is `humanize.ParseBytes`:
`some n` for a returned `uint64` value `n`, `none` for a returned error. -/
def ParseChunkSize (ParseBytes : String → Option Nat) (size : String) : Int :=
  let bytes : Int := DEFAULT_CHUNK_SIZE * 1024 * 1024
  let minimum_bytes : Int := MINIMUM_CHUNK_SIZE * 1024 * 1024
  let size := chunkSizeOperand size
  let bytes :=
    match ParseBytes size with
    | some n => int64OfUint64 n
    | none => bytes
  if bytes < minimum_bytes then minimum_bytes else bytes

/-! ## A concrete byte parser -/

/-- Modelled from the spec: the unit table of the byte parser, which is not among
the sources; unit names in lower case with their multipliers, decimal units as
powers of 1000 and binary units as powers of 1024. -/
def bytesSizeTable (unit : String) : Option Nat :=
  if unit = "" ∨ unit = "b" then some 1
  else if unit = "kib" ∨ unit = "ki" then some (2 ^ 10)
  else if unit = "kb" ∨ unit = "k" then some (10 ^ 3)
  else if unit = "mib" ∨ unit = "mi" then some (2 ^ 20)
  else if unit = "mb" ∨ unit = "m" then some (10 ^ 6)
  else if unit = "gib" ∨ unit = "gi" then some (2 ^ 30)
  else if unit = "gb" ∨ unit = "g" then some (10 ^ 9)
  else if unit = "tib" ∨ unit = "ti" then some (2 ^ 40)
  else if unit = "tb" ∨ unit = "t" then some (10 ^ 12)
  else if unit = "pib" ∨ unit = "pi" then some (2 ^ 50)
  else if unit = "pb" ∨ unit = "p" then some (10 ^ 15)
  else if unit = "eib" ∨ unit = "ei" then some (2 ^ 60)
  else if unit = "eb" ∨ unit = "e" then some (10 ^ 18)
  else none

/-- Modelled from the spec: the characters that make up the leading number of a
size string for the byte parser, which is not among the sources. -/
def isNumberChar (c : Char) : Bool :=
  c.isDigit || c = '.' || c = ','

/-- Modelled from the spec: the blanks the byte parser, which is not among the
sources, ignores around a unit name (ASCII white space). -/
def isSpaceChar (c : Char) : Bool :=
  c.toNat = 32 || (9 ≤ c.toNat && c.toNat ≤ 13)

/-- Modelled from the spec: removal of leading and trailing blanks in the byte
parser, which is not among the sources. -/
def trimSpace (cs : List Char) : List Char :=
  ((cs.dropWhile isSpaceChar).reverse.dropWhile isSpaceChar).reverse

/-- Modelled from the spec: the number part of the byte parser, which is not
among the sources.  An unsigned decimal numeral `digits[.digits]` with at least
one digit is read as a pair `(p, k)` meaning `p / 10^k`. -/
def decimalValue (cs : List Char) : Option (Nat × Nat) :=
  let whole := cs.takeWhile Char.isDigit
  match cs.dropWhile Char.isDigit with
  | [] =>
    match atoiMagnitude whole with
    | some p => some (p, 0)
    | none => none
  | c :: frac =>
    if c = '.' ∧ (whole ≠ [] ∨ frac ≠ []) then
      match digitsValue 0 (whole ++ frac) with
      | some p => some (p, frac.length)
      | none => none
    else none

/-- Modelled from the spec: the human-readable byte parser (`humanize.ParseBytes`
of the external go-humanize library) is not among the sources.  Following the
spec's "human-readable byte quantity using standard binary/decimal unit
semantics (K/M/G, etc.)": a leading decimal number (digits, an optional
fraction, thousands separators ignored), an optional unit name read without
regard to case and surrounding blanks, decimal units as powers of 1000 and
binary units (`Ki`, `Mi`, ...) as powers of 1024.  The product is truncated to a
whole number of bytes and must fit a `uint64`; anything else is an error.
Arithmetic is exact. -/
def humanizeParseBytes (s : String) : Option Nat :=
  let num := (s.data.takeWhile isNumberChar).filter (fun c => c ≠ ',')
  let extra := s.data.dropWhile isNumberChar
  match decimalValue num with
  | none => none
  | some (p, k) =>
    match bytesSizeTable (String.mk ((trimSpace extra).map Char.toLower)) with
    | none => none
    | some m =>
      let v := p * m / 10 ^ k
      if v < 2 ^ 64 then some v else none

/-! ## Data model (main.go, lines 19-34) -/

/-- The Go struct `Config`. -/
structure Config where
  S3_KEY_ID : String
  S3_SECRET : String
  BUCKET : String
  OBJECT_KEY : String
  HOST : String
  CONCURRENCY : Int
  CHUNK_SIZE : Int
  MAX_RETRIES : Int
  S3_STORAGE_CLASS : String
  SNAPSHOT_PREFIX : String
  FILESYSTEM : String
  QUIET : Bool
  PROGRESS : Bool
  ESTIMATED : Int
deriving DecidableEq, Repr

/-! ## What the program receives from outside -/

/-- A loaded configuration file, as far as `ReadConfig` looks at it: the value of
each key of the section `main`, when the key is present. -/
structure IniFile where
  main : String → Option String

/-- The two results of `ini.Load("z3.conf")`: the file pointer (`none` for `nil`)
and the error (`none` for `nil`). -/
structure LoadResult where
  file : Option IniFile
  err : Option String

/-- The command line after `flag.Parse()`: for each registered flag the value
given on the command line (`none` when the flag does not occur), and the
positional arguments left over. -/
structure CmdLine where
  chunk_size : Option String
  estimated : Option Int
  concurrency : Option Int
  storage_class : Option String
  progress : Option Bool
  quiet : Option Bool
  args : List String

/-- The uploader built by `GetUploader` (main.go, lines 138-152). -/
structure Uploader where
  Region : String
  Endpoint : String
  AccessKeyID : String
  SecretAccessKey : String
  PartSize : Int
  Concurrency : Int
deriving DecidableEq, Repr

/-- The external collaborators of one process run. -/
structure Env where
  /-- Result of `humanize.ParseBytes`: a `uint64` value or an error. -/
  ParseBytes : String → Option Nat
  /-- Result of `ini.Load("z3.conf")`. -/
  Load : LoadResult
  /-- Result of `cfg.Section("main").MapTo(conf)`: the overlaid struct or an error. -/
  MapTo : IniFile → Config → Except String Config
  /-- Result of `flag.Parse()`: the parsed command line, or the status with which
  the flag library ends the process on a malformed command line. -/
  Parse : Except Nat CmdLine
  /-- Result of `uploader.Upload` on standard input: `none` for a `nil` error. -/
  Upload : Uploader → String → String → Option String

/-- How a call of `ReadConfig` ends. -/
inductive Outcome where
  /-- The function returns a configuration. -/
  | returned (conf : Config)
  /-- Call of `log.Fatal`: the message is logged and the process exits with status 1. -/
  | fatal (msg : String)
  /-- Call of `os.Exit`, after the usage text was printed. -/
  | exit (status : Nat)
  /-- Run-time panic: a field of a `nil` pointer is written. -/
  | nilDereference
deriving DecidableEq, Repr

/-- Exit status of the process when `ReadConfig` does not return. -/
def Outcome.status : Outcome → Option Nat
  | .returned _ => none
  | .fatal _ => some 1
  | .exit status => some status
  | .nilDereference => some 2

/-! ## ReadConfig (main.go, lines 56-117) -/

/-- The local variables of `ReadConfig` once `flag.Parse()` has returned. -/
structure Locals where
  conf : Config
  CHUNK_SIZE : String
  args : List String

/-- The struct literal of lines 66-74; the fields not listed there have their
zero values.  Registering the flags (lines 76-81) stores each flag default in
its variable, which leaves these values as they are and `ESTIMATED` at 0. -/
def defaultConfig : Config :=
  { S3_KEY_ID := ""
    S3_SECRET := ""
    BUCKET := ""
    OBJECT_KEY := ""
    HOST := DEFAULT_HOST
    CONCURRENCY := DEFAULT_CONCURRENCY
    CHUNK_SIZE := DEFAULT_CHUNK_SIZE
    MAX_RETRIES := DEFAULT_MAX_RETRIES
    S3_STORAGE_CLASS := DEFAULT_S3_STORAGE_CLASS
    SNAPSHOT_PREFIX := ""
    FILESYSTEM := ""
    QUIET := DEFAULT_QUIET
    PROGRESS := DEFAULT_PROGRESS
    ESTIMATED := 0 }

/-- `cfg.Section("main").Key(name).String()` (line 89): the value of the key; for
a key that the section does not have, the ini library hands back a key with
the zero value, whose string is empty. -/
def keyString (cfg : IniFile) (name : String) : String :=
  match cfg.main name with
  | some v => v
  | none => ""

/-- Effect of `flag.Parse()` on the variables bound to the flags of lines 77-81:
a flag that occurs on the command line overwrites its variable. -/
def applyFlags (cl : CmdLine) (conf : Config) : Config :=
  { conf with
    ESTIMATED := cl.estimated.getD conf.ESTIMATED
    CONCURRENCY := cl.concurrency.getD conf.CONCURRENCY
    S3_STORAGE_CLASS := cl.storage_class.getD conf.S3_STORAGE_CLASS
    PROGRESS := cl.progress.getD conf.PROGRESS
    QUIET := cl.quiet.getD conf.QUIET }

/-- Lines 57-90 of `ReadConfig`: load the file, seed the defaults, overlay the
section `main`, then the flags. -/
def mergeSources (env : Env) : Except Outcome Locals :=
  -- line 57: cfg, err := ini.Load("z3.conf")
  match env.Load.file with
  -- line 58: cfg.BlockMode = false
  | none => .error .nilDereference
  | some cfg =>
    -- lines 60-62
    match env.Load.err with
    | some _ => .error (.fatal "Unable to load config file")
    | none =>
      -- line 65 and line 76: the variable and the flag default
      let seeded : Locals :=
        { conf := defaultConfig, CHUNK_SIZE := Sprintf_dMB_int DEFAULT_CHUNK_SIZE, args := [] }
      -- line 83
      match env.MapTo cfg seeded.conf with
      | .error e => .error (.fatal ("Can't map config: " ++ e))
      | .ok conf =>
        let mapped : Locals := { seeded with conf := conf }
        -- line 89
        let keyed : Locals := { mapped with CHUNK_SIZE := keyString cfg "CHUNK_SIZE" }
        -- line 90
        match env.Parse with
        | .error status => .error (.exit status)
        | .ok cl =>
          .ok { conf := applyFlags cl keyed.conf
                CHUNK_SIZE := cl.chunk_size.getD keyed.CHUNK_SIZE
                args := cl.args }

/-- Lines 106-108: progress wins over quiet. -/
def progressOverQuiet (conf : Config) : Config :=
  if conf.PROGRESS && conf.QUIET then { conf with QUIET := false } else conf

/-- Lines 110-114: the part size. -/
def resolveChunkSize (ParseBytes : String → Option Nat) (CHUNK_SIZE : String)
    (conf : Config) : Config :=
  if conf.ESTIMATED > 0 then { conf with CHUNK_SIZE := 0 }
  else { conf with CHUNK_SIZE := ParseChunkSize ParseBytes CHUNK_SIZE }

/-- Lines 92-116 of `ReadConfig`: the positional argument, then the two
resolution rules. -/
def resolve (ParseBytes : String → Option Nat) (l : Locals) : Outcome :=
  match l.args with
  | [key] =>
    let conf := { l.conf with OBJECT_KEY := key }
    let conf := progressOverQuiet conf
    let conf := resolveChunkSize ParseBytes l.CHUNK_SIZE conf
    .returned conf
  | [] => .exit 1
  | _ :: _ :: _ => .exit 1

/-- Embedding of `ReadConfig`. -/
def ReadConfig (env : Env) : Outcome :=
  match mergeSources env with
  | .error stop => stop
  | .ok l => resolve env.ParseBytes l

/-! ## main, GetUploader and upload -/

/-- Embedding of `GetUploader` (main.go, lines 138-152). -/
def GetUploader (cfg : Config) : Uploader :=
  { Region := "ap-southeast-2"
    Endpoint := cfg.HOST
    AccessKeyID := cfg.S3_KEY_ID
    SecretAccessKey := cfg.S3_SECRET
    PartSize := cfg.CHUNK_SIZE
    Concurrency := cfg.CONCURRENCY }

/-- Embedding of `upload` (uploader.go): one call of `uploader.Upload`, the error
passed on unchanged. -/
def upload (env : Env) (uploader : Uploader) (bucket key : String) : Option String :=
  match env.Upload uploader bucket key with
  | some err => some err
  | none => none

/-- One process run. -/
inductive Run where
  /-- The run ends inside `ReadConfig`; `upload` is never called. -/
  | stopped (stop : Outcome)
  /-- The run reaches `upload` with this uploader, bucket and key, and `err` is
  what `upload` returns; a non-nil error ends in `log.Fatal`. -/
  | uploaded (uploader : Uploader) (bucket key : String) (err : Option String)
deriving DecidableEq, Repr

/-- Embedding of `main` (main.go, lines 45-54). -/
def main (env : Env) : Run :=
  match ReadConfig env with
  | .returned cfg =>
    let client := GetUploader cfg
    .uploaded client cfg.BUCKET cfg.OBJECT_KEY (upload env client cfg.BUCKET cfg.OBJECT_KEY)
  | stop => .stopped stop

/-- The object key of the upload call of a run, if the run makes one. -/
def Run.uploadKey : Run → Option String
  | .stopped _ => none
  | .uploaded _ _ key _ => some key

/-- Exit status of the process. -/
def Run.status : Run → Nat
  | .stopped stop => stop.status.getD 0
  | .uploaded _ _ _ none => 0
  | .uploaded _ _ _ (some _) => 1

/-! ## Concrete runs used for evaluation -/

/-- A configuration file whose section `main` holds the credentials and the
bucket and no `CHUNK_SIZE` key. -/
def sampleFile : IniFile :=
  { main := fun name =>
      if name = "S3_KEY_ID" then some "AKIDEXAMPLE"
      else if name = "S3_SECRET" then some "secret"
      else if name = "BUCKET" then some "backups"
      else none }

/-- Overlay of the string fields found in the section; every other field is left
as it is. -/
def sampleMapTo (cfg : IniFile) (conf : Config) : Except String Config :=
  .ok { conf with
        S3_KEY_ID := (cfg.main "S3_KEY_ID").getD conf.S3_KEY_ID
        S3_SECRET := (cfg.main "S3_SECRET").getD conf.S3_SECRET
        BUCKET := (cfg.main "BUCKET").getD conf.BUCKET
        HOST := (cfg.main "HOST").getD conf.HOST }

/-- A command line without flags. -/
def noFlags (args : List String) : CmdLine :=
  { chunk_size := none, estimated := none, concurrency := none, storage_class := none
    progress := none, quiet := none, args := args }

/-- A run with the sample file, the given command line and an upload that
succeeds. -/
def sampleEnv (cl : CmdLine) : Env :=
  { ParseBytes := humanizeParseBytes
    Load := { file := some sampleFile, err := none }
    MapTo := sampleMapTo
    Parse := .ok cl
    Upload := fun _ _ _ => none }

/-- A run in which `z3.conf` cannot be loaded: no file object and an error. -/
def missingFileEnv (cl : CmdLine) : Env :=
  { sampleEnv cl with Load := { file := none, err := some "open z3.conf: no such file or directory" } }

/-- The run `mykey`: no flags, one positional argument. -/
def plainRun : Env :=
  sampleEnv (noFlags ["mykey"])

/-- The run without any argument. -/
def noKeyRun : Env :=
  sampleEnv (noFlags [])

/-- The run `first second`: two positional arguments. -/
def twoKeysRun : Env :=
  sampleEnv (noFlags ["first", "second"])

/-- The run `--estimated 1 -s 10M mykey`. -/
def estimatedRun : Env :=
  sampleEnv { noFlags ["mykey"] with estimated := some 1, chunk_size := some "10M" }

/-- The run `-s 10M mykey`. -/
def chunkSizeRun : Env :=
  sampleEnv { noFlags ["mykey"] with chunk_size := some "10M" }

/-- The run `--progress --quiet mykey`. -/
def progressQuietRun : Env :=
  sampleEnv { noFlags ["mykey"] with progress := some true, quiet := some true }

/-- The struct after the overlay of the sample file and no flags. -/
def sampleMerged : Config :=
  { defaultConfig with S3_KEY_ID := "AKIDEXAMPLE", S3_SECRET := "secret", BUCKET := "backups" }

/-- The configuration that `ReadConfig` returns in `plainRun`. -/
def plainConfig : Config :=
  { sampleMerged with OBJECT_KEY := "mykey", CHUNK_SIZE := 268435456 }

/-- The local variables after `flag.Parse()` in `plainRun`. -/
def plainLocals : Locals :=
  { conf := sampleMerged, CHUNK_SIZE := "", args := ["mykey"] }

/-- The local variables after `flag.Parse()` in `estimatedRun`. -/
def estimatedLocals : Locals :=
  { conf := { sampleMerged with ESTIMATED := 1 }, CHUNK_SIZE := "10M", args := ["mykey"] }

/-- The configuration that `ReadConfig` returns in `estimatedRun`. -/
def estimatedConfig : Config :=
  { sampleMerged with OBJECT_KEY := "mykey", ESTIMATED := 1, CHUNK_SIZE := 0 }

/-- The local variables after `flag.Parse()` in `chunkSizeRun`. -/
def chunkSizeLocals : Locals :=
  { conf := sampleMerged, CHUNK_SIZE := "10M", args := ["mykey"] }

/-- The configuration that `ReadConfig` returns in `chunkSizeRun`. -/
def chunkSizeConfig : Config :=
  { sampleMerged with OBJECT_KEY := "mykey", CHUNK_SIZE := 10000000 }

/-- The local variables after `flag.Parse()` in `progressQuietRun`. -/
def progressQuietLocals : Locals :=
  { conf := { sampleMerged with PROGRESS := true, QUIET := true }
    CHUNK_SIZE := "", args := ["mykey"] }

/-- The configuration that `ReadConfig` returns in `progressQuietRun`. -/
def progressQuietConfig : Config :=
  { sampleMerged with OBJECT_KEY := "mykey", PROGRESS := true, QUIET := false
                      CHUNK_SIZE := 268435456 }

/-- The local variables after `flag.Parse()` in `noKeyRun`. -/
def noKeyLocals : Locals :=
  { conf := sampleMerged, CHUNK_SIZE := "", args := [] }

/-- The local variables after `flag.Parse()` in `twoKeysRun`. -/
def twoKeysLocals : Locals :=
  { conf := sampleMerged, CHUNK_SIZE := "", args := ["first", "second"] }

/-! ## Facts about the pieces -/

theorem minimum_bytes_eq : MINIMUM_CHUNK_SIZE * 1024 * 1024 = 5242880 := by
  decide

theorem default_bytes_eq : DEFAULT_CHUNK_SIZE * 1024 * 1024 = 268435456 := by
  decide

/-- A `uint64` below `2^63` keeps its value under `int64(...)`. -/
theorem int64OfUint64_small (n : Nat) (h : n < 2 ^ 63) : int64OfUint64 n = (n : Int) := by
  unfold int64OfUint64
  split <;> omega

/-- A `uint64` from `2^63` on becomes negative under `int64(...)`. -/
theorem int64OfUint64_large (n : Nat) (h : 2 ^ 63 ≤ n) (h64 : n < 2 ^ 64) :
    int64OfUint64 n = (n : Int) - 2 ^ 64 ∧ int64OfUint64 n < 0 := by
  unfold int64OfUint64
  split <;> omega

/-- Unfolding of `ParseChunkSize` with the constants evaluated. -/
theorem ParseChunkSize_eq (pb : String → Option Nat) (s : String) :
    ParseChunkSize pb s =
      match pb (chunkSizeOperand s) with
      | some n => if int64OfUint64 n < 5242880 then 5242880 else int64OfUint64 n
      | none => 268435456 := by
  unfold ParseChunkSize
  rw [minimum_bytes_eq, default_bytes_eq]
  cases h : pb (chunkSizeOperand s) <;> simp [h]

/-- The result of `ParseChunkSize` is never below the floor. -/
theorem ParseChunkSize_ge (pb : String → Option Nat) (s : String) :
    5242880 ≤ ParseChunkSize pb s := by
  rw [ParseChunkSize_eq]
  generalize pb (chunkSizeOperand s) = r
  cases r with
  | none => simp
  | some n =>
    simp only
    split <;> omega

/-- The operand of the byte parser for an input that `Atoi` rejects. -/
theorem chunkSizeOperand_of_not_int (s : String) (h : Atoi s = none) :
    chunkSizeOperand s = s := by
  simp [chunkSizeOperand, h]

/-- The operand of the byte parser for an input that `Atoi` accepts. -/
theorem chunkSizeOperand_of_int (s : String) (n : Int) (h : Atoi s = some n) :
    chunkSizeOperand s = Sprintf_dMB_string s := by
  simp [chunkSizeOperand, h]

/-- For a plain integer the byte parser sees the text of line 125; when it
rejects that text the result is the fallback. -/
theorem ParseChunkSize_of_int (pb : String → Option Nat) (s : String) (n : Int)
    (hint : Atoi s = some n) (hfmt : pb (Sprintf_dMB_string s) = none) :
    ParseChunkSize pb s = 268435456 := by
  rw [ParseChunkSize_eq, chunkSizeOperand_of_int s n hint, hfmt]

/-- A parsed value from `2^63` on ends as the floor. -/
theorem ParseChunkSize_of_large (pb : String → Option Nat) (s : String) (n : Nat)
    (hparse : pb (chunkSizeOperand s) = some n) (hlo : 2 ^ 63 ≤ n) (hhi : n < 2 ^ 64) :
    ParseChunkSize pb s = 5242880 := by
  rw [ParseChunkSize_eq, hparse]
  have h := (int64OfUint64_large n hlo hhi).2
  simp only
  rw [if_pos (by omega)]

/-- The modelled byte parser rejects every text that line 125 produces: it
starts with a percent sign, so it has no leading number. -/
theorem humanizeParseBytes_Sprintf_dMB_string (t : String) :
    humanizeParseBytes (Sprintf_dMB_string t) = none := by
  have hdata : (Sprintf_dMB_string t).data
      = '%' :: (['!', 'd', '(', 's', 't', 'r', 'i', 'n', 'g', '='] ++ t.data ++ [')', 'M', 'B']) := by
    simp [Sprintf_dMB_string, String.data_append]
  have hchar : isNumberChar '%' = false := by decide
  simp [humanizeParseBytes, hdata, List.takeWhile, hchar, decimalValue, atoiMagnitude]

/-! ## ParseChunkSize: the claims -/

/-- C1: the claim says that a plain integer is read as megabytes.  On the input
`"10"` `strconv.Atoi` succeeds, line 125 formats the string operand with `%d`
and hands `%!d(string=10)MB` to the byte parser, which rejects it, so the
result is the fallback 268435456 and not the value 10000000 of `"10MB"`. -/
theorem ParseChunkSize_plain_integer_at_10 :
    Atoi "10" = some 10 ∧
    chunkSizeOperand "10" = "%!d(string=10)MB" ∧
    humanizeParseBytes (chunkSizeOperand "10") = none ∧
    ParseChunkSize humanizeParseBytes "10" = 268435456 ∧
    ParseChunkSize humanizeParseBytes "10MB" = 10000000 := by
  decide

/-- C2, as stated, fails: `"10EB"` is not a plain integer, the byte parser accepts
it with the value 10^19, which is at or above the floor and fits a `uint64`, yet
`int64(...)` of it is negative and the result is the floor 5242880. -/
theorem ParseChunkSize_exact_fails_at_10EB :
    Atoi "10EB" = none ∧
    humanizeParseBytes "10EB" = some (10 ^ 19) ∧
    (5242880 : Int) ≤ ((10 ^ 19 : Nat) : Int) ∧
    10 ^ 19 < 2 ^ 64 ∧
    ParseChunkSize humanizeParseBytes "10EB" = 5242880 ∧
    ParseChunkSize humanizeParseBytes "10EB" ≠ ((10 ^ 19 : Nat) : Int) := by
  decide

/-- C2, amended: for every byte parser and every size string `s` that is not a
plain integer and that the parser accepts with value `n`, if `n` is at or above
the floor 5*1024*1024 and below 2^63 (so that it is an `int64`), then
`ParseChunkSize s = n`. -/
theorem ParseChunkSize_exact (pb : String → Option Nat) (s : String) (n : Nat)
    (hint : Atoi s = none) (hparse : pb s = some n)
    (hfloor : 5 * 1024 * 1024 ≤ n) (hrange : n < 2 ^ 63) :
    ParseChunkSize pb s = (n : Int) := by
  rw [ParseChunkSize_eq, chunkSizeOperand_of_not_int s hint, hparse]
  simp only [int64OfUint64_small n hrange]
  split <;> omega

/-- Witness for C2, amended: `"10M"` is accepted with 10000000, which lies
between the floor and 2^63. -/
theorem ParseChunkSize_exact_witness :
    humanizeParseBytes "10M" = some 10000000 ∧
    ParseChunkSize humanizeParseBytes "10M" = ((10000000 : Nat) : Int) :=
  ⟨by decide,
   ParseChunkSize_exact humanizeParseBytes "10M" 10000000 (by decide) (by decide)
     (by decide) (by decide)⟩

/-- C3: for every byte parser and every input `s`, if the byte value that the
parser returns for the operand of line 128 is below the floor 5242880 then
`ParseChunkSize s` is exactly 5242880; and for every input the result is at
least 5242880. -/
theorem ParseChunkSize_floor (pb : String → Option Nat) (s : String) :
    (∀ n : Nat, pb (chunkSizeOperand s) = some n → n < 5242880 →
      ParseChunkSize pb s = 5242880) ∧
    5242880 ≤ ParseChunkSize pb s := by
  refine ⟨?_, ParseChunkSize_ge pb s⟩
  intro n hparse hlt
  rw [ParseChunkSize_eq, hparse]
  simp only [int64OfUint64_small n (by omega)]
  split <;> omega

/-- Witness for C3: `"1M"` is parsed as 1000000, below the floor. -/
theorem ParseChunkSize_floor_witness :
    chunkSizeOperand "1M" = "1M" ∧
    humanizeParseBytes "1M" = some 1000000 ∧
    ParseChunkSize humanizeParseBytes "1M" = 5242880 ∧
    5242880 ≤ ParseChunkSize humanizeParseBytes "1M" :=
  ⟨by decide, by decide,
   (ParseChunkSize_floor humanizeParseBytes "1M").1 1000000 (by decide) (by decide),
   (ParseChunkSize_floor humanizeParseBytes "1M").2⟩

/-- C4: for every byte parser and every size string `s` that the parser rejects,
`ParseChunkSize s` is a value (the function is total, there is no error result)
and equals the default DEFAULT_CHUNK_SIZE*1024*1024 = 268435456.  When `s` is
also a plain integer for `strconv.Atoi` (a signed one), the parser sees the text
of line 125 instead, and `hfmt` says that it rejects that text too. -/
theorem ParseChunkSize_malformed (pb : String → Option Nat) (s : String)
    (hrej : pb s = none) (hfmt : pb (Sprintf_dMB_string s) = none) :
    ParseChunkSize pb s = DEFAULT_CHUNK_SIZE * 1024 * 1024 ∧
    ParseChunkSize pb s = 268435456 := by
  have hop : pb (chunkSizeOperand s) = none := by
    unfold chunkSizeOperand
    split
    · exact hfmt
    · exact hrej
  rw [default_bytes_eq, ParseChunkSize_eq, hop]
  exact ⟨rfl, rfl⟩

/-- Witness for C4: `"notasize"`, the empty string and the signed integer `"-5"`
are rejected by the byte parser. -/
theorem ParseChunkSize_malformed_witness :
    (humanizeParseBytes "notasize" = none ∧
      ParseChunkSize humanizeParseBytes "notasize" = 268435456) ∧
    (humanizeParseBytes "" = none ∧
      ParseChunkSize humanizeParseBytes "" = 268435456) ∧
    (humanizeParseBytes "-5" = none ∧
      ParseChunkSize humanizeParseBytes "-5" = 268435456) :=
  ⟨⟨by decide,
    (ParseChunkSize_malformed humanizeParseBytes "notasize" (by decide)
      (humanizeParseBytes_Sprintf_dMB_string _)).2⟩,
   ⟨by decide,
    (ParseChunkSize_malformed humanizeParseBytes "" (by decide)
      (humanizeParseBytes_Sprintf_dMB_string _)).2⟩,
   ⟨by decide,
    (ParseChunkSize_malformed humanizeParseBytes "-5" (by decide)
      (humanizeParseBytes_Sprintf_dMB_string _)).2⟩⟩

/-! ## ReadConfig: facts about the stages -/

/-- What `mergeSources` has seen when it hands over the local variables: a file
object and no error, a successful overlay of the section and a parsed command
line; the chunk-size string is the flag value when the flag occurs and the
value of the key `CHUNK_SIZE` of the file otherwise. -/
theorem mergeSources_ok (env : Env) (l : Locals) (h : mergeSources env = .ok l) :
    ∃ cfg conf cl, env.Load.file = some cfg ∧ env.Load.err = none ∧
      env.MapTo cfg defaultConfig = .ok conf ∧ env.Parse = .ok cl ∧
      l.conf = applyFlags cl conf ∧
      l.CHUNK_SIZE = cl.chunk_size.getD (keyString cfg "CHUNK_SIZE") ∧
      l.args = cl.args := by
  cases hf : env.Load.file with
  | none => simp [mergeSources, hf] at h
  | some cfg =>
    cases he : env.Load.err with
    | some e => simp [mergeSources, hf, he] at h
    | none =>
      cases hm : env.MapTo cfg defaultConfig with
      | error e => simp [mergeSources, hf, he, hm] at h
      | ok conf =>
        cases hp : env.Parse with
        | error st => simp [mergeSources, hf, he, hm, hp] at h
        | ok cl =>
          simp only [mergeSources, hf, he, hm, hp, Except.ok.injEq] at h
          subst h
          exact ⟨cfg, conf, cl, rfl, rfl, hm, rfl, rfl, rfl, rfl⟩

/-- The first stage never ends the run with a configuration. -/
theorem mergeSources_error (env : Env) (stop : Outcome)
    (h : mergeSources env = .error stop) (c : Config) : stop ≠ .returned c := by
  intro hstop
  subst hstop
  cases hf : env.Load.file with
  | none => simp [mergeSources, hf] at h
  | some cfg =>
    cases he : env.Load.err with
    | some e => simp [mergeSources, hf, he] at h
    | none =>
      cases hm : env.MapTo cfg defaultConfig with
      | error e => simp [mergeSources, hf, he, hm] at h
      | ok conf =>
        cases hp : env.Parse with
        | error st => simp [mergeSources, hf, he, hm, hp] at h
        | ok cl => simp [mergeSources, hf, he, hm, hp] at h

/-- The second stage returns exactly on one positional argument. -/
theorem resolve_returned (pb : String → Option Nat) (l : Locals) (c : Config) :
    resolve pb l = .returned c ↔
      ∃ key, l.args = [key] ∧
        c = resolveChunkSize pb l.CHUNK_SIZE
              (progressOverQuiet { l.conf with OBJECT_KEY := key }) := by
  cases hargs : l.args with
  | nil => simp [resolve, hargs]
  | cons a t =>
    cases t with
    | nil =>
      simp only [resolve, hargs, Outcome.returned.injEq, List.cons.injEq, and_true]
      constructor
      · intro h
        exact ⟨a, rfl, h.symm⟩
      · rintro ⟨key, hk, hc⟩
        rw [hc, hk]
    | cons b t => simp [resolve, hargs]

/-- The second stage exits with status 1 on any other number of arguments. -/
theorem resolve_exit (pb : String → Option Nat) (l : Locals) (h : l.args.length ≠ 1) :
    resolve pb l = .exit 1 := by
  cases hargs : l.args with
  | nil => simp [resolve, hargs]
  | cons a t =>
    cases t with
    | nil => simp [hargs] at h
    | cons b t => simp [resolve, hargs]

/-- A returned configuration, in terms of the local variables after `flag.Parse()`. -/
theorem ReadConfig_returned (env : Env) (c : Config) :
    ReadConfig env = .returned c ↔
      ∃ l key, mergeSources env = .ok l ∧ l.args = [key] ∧
        c = resolveChunkSize env.ParseBytes l.CHUNK_SIZE
              (progressOverQuiet { l.conf with OBJECT_KEY := key }) := by
  unfold ReadConfig
  cases hm : mergeSources env with
  | error stop =>
    simp only
    constructor
    · intro h
      exact absurd h (mergeSources_error env stop hm c)
    · rintro ⟨l, key, hl, _⟩
      cases hl
  | ok l =>
    simp only [resolve_returned]
    constructor
    · rintro ⟨key, hk, hc⟩
      exact ⟨l, key, rfl, hk, hc⟩
    · rintro ⟨l2, key, hl, hk, hc⟩
      cases hl
      exact ⟨key, hk, hc⟩

theorem progressOverQuiet_fields (conf : Config) :
    (progressOverQuiet conf).PROGRESS = conf.PROGRESS ∧
    (progressOverQuiet conf).ESTIMATED = conf.ESTIMATED ∧
    (progressOverQuiet conf).OBJECT_KEY = conf.OBJECT_KEY ∧
    (progressOverQuiet conf).QUIET = (conf.QUIET && !conf.PROGRESS) := by
  unfold progressOverQuiet
  cases hp : conf.PROGRESS <;> cases hq : conf.QUIET <;> simp [hp, hq]

theorem resolveChunkSize_fields (pb : String → Option Nat) (cs : String) (conf : Config) :
    (resolveChunkSize pb cs conf).PROGRESS = conf.PROGRESS ∧
    (resolveChunkSize pb cs conf).QUIET = conf.QUIET ∧
    (resolveChunkSize pb cs conf).ESTIMATED = conf.ESTIMATED ∧
    (resolveChunkSize pb cs conf).OBJECT_KEY = conf.OBJECT_KEY ∧
    (resolveChunkSize pb cs conf).CHUNK_SIZE
      = if conf.ESTIMATED > 0 then 0 else ParseChunkSize pb cs := by
  unfold resolveChunkSize
  split <;> simp

/-- Whenever `ini.Load` hands back no file object, `ReadConfig` ends at line 58. -/
theorem ReadConfig_of_nil_file (env : Env) (h : env.Load.file = none) :
    ReadConfig env = .nilDereference := by
  simp [ReadConfig, mergeSources, h]

/-- Without a `CHUNK_SIZE` key in the file and without the flag, the chunk-size
string after `flag.Parse()` is empty. -/
theorem mergeSources_CHUNK_SIZE_absent (env : Env) (l : Locals) (cfg : IniFile) (cl : CmdLine)
    (h : mergeSources env = .ok l) (hfile : env.Load.file = some cfg) (hparse : env.Parse = .ok cl)
    (hkey : cfg.main "CHUNK_SIZE" = none) (hflag : cl.chunk_size = none) :
    l.CHUNK_SIZE = "" := by
  obtain ⟨cfg2, conf, cl2, hf, _, _, hp, _, hcs, _⟩ := mergeSources_ok env l h
  rw [hfile] at hf
  rw [hparse] at hp
  cases hf
  cases hp
  rw [hcs, hflag]
  simp [keyString, hkey]

/-- The fields of a returned configuration, in terms of the local variables
after `flag.Parse()`. -/
theorem ReadConfig_fields (env : Env) (l : Locals) (c : Config)
    (hmerge : mergeSources env = .ok l) (hret : ReadConfig env = .returned c) :
    l.args = [c.OBJECT_KEY] ∧
    c.PROGRESS = l.conf.PROGRESS ∧
    c.QUIET = (l.conf.QUIET && !l.conf.PROGRESS) ∧
    c.ESTIMATED = l.conf.ESTIMATED ∧
    c.CHUNK_SIZE
      = if l.conf.ESTIMATED > 0 then 0 else ParseChunkSize env.ParseBytes l.CHUNK_SIZE := by
  obtain ⟨l2, key, hl, hk, hc⟩ := (ReadConfig_returned env c).1 hret
  rw [hmerge] at hl
  cases hl
  obtain ⟨hp, hq, hest, hkey, hcs⟩ := resolveChunkSize_fields env.ParseBytes l.CHUNK_SIZE
    (progressOverQuiet { l.conf with OBJECT_KEY := key })
  obtain ⟨hp2, hest2, hkey2, hq2⟩ := progressOverQuiet_fields { l.conf with OBJECT_KEY := key }
  rw [← hc] at hp hq hest hkey hcs
  rw [hp2] at hp
  rw [hq2] at hq
  rw [hest2] at hest hcs
  rw [hkey2] at hkey
  simp only at hp hq hest hkey hcs
  rw [hkey]
  exact ⟨hk, hp, hq, hest, hcs⟩

/-- With exactly one positional argument left, `ReadConfig` returns. -/
theorem ReadConfig_of_one_arg (env : Env) (l : Locals) (key : String)
    (hmerge : mergeSources env = .ok l) (hargs : l.args = [key]) :
    ∃ c, ReadConfig env = .returned c ∧ c.OBJECT_KEY = key := by
  have hret : ReadConfig env = .returned (resolveChunkSize env.ParseBytes l.CHUNK_SIZE
      (progressOverQuiet { l.conf with OBJECT_KEY := key })) :=
    (ReadConfig_returned env _).2 ⟨l, key, hmerge, hargs, rfl⟩
  refine ⟨_, hret, ?_⟩
  have h := (ReadConfig_fields env l _ hmerge hret).1
  rw [hargs] at h
  injection h with h _
  exact h.symm

/-- `main` calls `upload` with the object key of the returned configuration. -/
theorem main_of_returned (env : Env) (c : Config) (h : ReadConfig env = .returned c) :
    (main env).uploadKey = some c.OBJECT_KEY := by
  simp [main, h, Run.uploadKey]

/-- `main` makes no upload call when `ReadConfig` exits. -/
theorem main_of_exit (env : Env) (status : Nat) (h : ReadConfig env = .exit status) :
    main env = .stopped (.exit status) := by
  simp [main, h]

/-! ## ReadConfig: the claims -/

/-- C5: for every run in which `ReadConfig` returns a configuration `c`, with `l`
the local variables after `flag.Parse()` (so `l.CHUNK_SIZE` is the chunk-size
string from the flag or the file): `ESTIMATED` is as merged, if `ESTIMATED > 0`
then `CHUNK_SIZE` is exactly 0 whatever the chunk-size string is, and if
`ESTIMATED <= 0` then `CHUNK_SIZE` is `ParseChunkSize` of that string. -/
theorem ReadConfig_part_size (env : Env) (l : Locals) (c : Config)
    (hmerge : mergeSources env = .ok l) (hret : ReadConfig env = .returned c) :
    c.ESTIMATED = l.conf.ESTIMATED ∧
    (c.ESTIMATED > 0 → c.CHUNK_SIZE = 0) ∧
    (c.ESTIMATED ≤ 0 → c.CHUNK_SIZE = ParseChunkSize env.ParseBytes l.CHUNK_SIZE) := by
  obtain ⟨_, _, _, hest, hcs⟩ := ReadConfig_fields env l c hmerge hret
  rw [← hest] at hcs
  refine ⟨hest, ?_, ?_⟩
  · intro hpos
    rw [hcs, if_pos hpos]
  · intro hle
    rw [hcs, if_neg (by omega)]

/-- Witness for C5: the runs `--estimated 1 -s 10M mykey` and `-s 10M mykey`. -/
theorem ReadConfig_part_size_witness :
    (mergeSources estimatedRun = .ok estimatedLocals ∧
      ReadConfig estimatedRun = .returned estimatedConfig ∧
      estimatedLocals.CHUNK_SIZE = "10M" ∧
      estimatedConfig.ESTIMATED = 1 ∧
      estimatedConfig.CHUNK_SIZE = 0) ∧
    (mergeSources chunkSizeRun = .ok chunkSizeLocals ∧
      ReadConfig chunkSizeRun = .returned chunkSizeConfig ∧
      chunkSizeLocals.CHUNK_SIZE = "10M" ∧
      chunkSizeConfig.ESTIMATED = 0 ∧
      chunkSizeConfig.CHUNK_SIZE = ParseChunkSize humanizeParseBytes "10M") :=
  ⟨⟨rfl, rfl, rfl, rfl,
    (ReadConfig_part_size estimatedRun estimatedLocals estimatedConfig rfl rfl).2.1
      (by decide)⟩,
   ⟨rfl, rfl, rfl, rfl,
    (ReadConfig_part_size chunkSizeRun chunkSizeLocals chunkSizeConfig rfl rfl).2.2
      (by decide)⟩⟩

/-- C6, as stated, fails: the run `--estimated 1 -s 10M mykey` returns a
configuration whose part size is 0, below MINIMUM_CHUNK_SIZE*1024*1024. -/
theorem ReadConfig_part_size_below_minimum :
    ReadConfig estimatedRun = .returned estimatedConfig ∧
    estimatedConfig.ESTIMATED = 1 ∧
    estimatedConfig.CHUNK_SIZE = 0 ∧
    estimatedConfig.CHUNK_SIZE < MINIMUM_CHUNK_SIZE * 1024 * 1024 :=
  ⟨rfl, rfl, rfl, by decide⟩

/-- C6, amended: for every configuration returned by `ReadConfig` with
`ESTIMATED <= 0`, the part size `CHUNK_SIZE` is never below
MINIMUM_CHUNK_SIZE*1024*1024 bytes; with `ESTIMATED > 0` it is 0. -/
theorem ReadConfig_part_size_minimum (env : Env) (c : Config)
    (hret : ReadConfig env = .returned c) :
    (c.ESTIMATED ≤ 0 → MINIMUM_CHUNK_SIZE * 1024 * 1024 ≤ c.CHUNK_SIZE) ∧
    (c.ESTIMATED > 0 → c.CHUNK_SIZE = 0) := by
  obtain ⟨l, key, hl, _, _⟩ := (ReadConfig_returned env c).1 hret
  obtain ⟨_, _, _, hest, hcs⟩ := ReadConfig_fields env l c hl hret
  rw [← hest] at hcs
  constructor
  · intro h
    rw [hcs, if_neg (by omega), minimum_bytes_eq]
    exact ParseChunkSize_ge _ _
  · intro h
    rw [hcs, if_pos h]

/-- Witness for C6, amended: the run `-s 10M mykey`. -/
theorem ReadConfig_part_size_minimum_witness :
    ReadConfig chunkSizeRun = .returned chunkSizeConfig ∧
    chunkSizeConfig.ESTIMATED ≤ 0 ∧
    MINIMUM_CHUNK_SIZE * 1024 * 1024 ≤ chunkSizeConfig.CHUNK_SIZE :=
  ⟨rfl, by decide,
   (ReadConfig_part_size_minimum chunkSizeRun chunkSizeConfig rfl).1 (by decide)⟩

/-- C7: for every run in which `ReadConfig` returns a configuration `c`, with `l`
the local variables after `flag.Parse()` (`l.conf.PROGRESS` and `l.conf.QUIET`
are the values requested by the file and the flags): if both are requested then
the resolved `QUIET` is false and `PROGRESS` stays true; `PROGRESS` and `QUIET`
are never both true in `c`; if `PROGRESS` is false then `QUIET` is as
supplied; and `PROGRESS` is always as supplied. -/
theorem ReadConfig_progress_quiet (env : Env) (l : Locals) (c : Config)
    (hmerge : mergeSources env = .ok l) (hret : ReadConfig env = .returned c) :
    (l.conf.PROGRESS = true → l.conf.QUIET = true → c.QUIET = false ∧ c.PROGRESS = true) ∧
    ¬ (c.PROGRESS = true ∧ c.QUIET = true) ∧
    (l.conf.PROGRESS = false → c.QUIET = l.conf.QUIET) ∧
    c.PROGRESS = l.conf.PROGRESS := by
  obtain ⟨_, hp, hq, _, _⟩ := ReadConfig_fields env l c hmerge hret
  rw [hp, hq]
  cases l.conf.PROGRESS <;> cases l.conf.QUIET <;> simp

/-- Witness for C7: the run `--progress --quiet mykey`. -/
theorem ReadConfig_progress_quiet_witness :
    mergeSources progressQuietRun = .ok progressQuietLocals ∧
    ReadConfig progressQuietRun = .returned progressQuietConfig ∧
    progressQuietLocals.conf.PROGRESS = true ∧ progressQuietLocals.conf.QUIET = true ∧
    progressQuietConfig.QUIET = false ∧ progressQuietConfig.PROGRESS = true :=
  ⟨rfl, rfl, rfl, rfl,
   (ReadConfig_progress_quiet progressQuietRun progressQuietLocals progressQuietConfig
      rfl rfl).1 rfl rfl⟩

/-- C8: `ReadConfig` returns a configuration if and only if `flag.Parse()` has
returned and exactly one positional argument is left; then `OBJECT_KEY` is that
argument and `main` calls `upload` with it.  With zero or more than one
positional argument left, `ReadConfig` ends in `os.Exit(1)`, the exit status is
1, no configuration is returned and `main` makes no upload call. -/
theorem ReadConfig_positional (env : Env) :
    ((∃ c, ReadConfig env = .returned c) ↔
      ∃ l, mergeSources env = .ok l ∧ l.args.length = 1) ∧
    (∀ l key, mergeSources env = .ok l → l.args = [key] →
      ∃ c, ReadConfig env = .returned c ∧ c.OBJECT_KEY = key ∧
        (main env).uploadKey = some key) ∧
    (∀ l, mergeSources env = .ok l → l.args.length ≠ 1 →
      ReadConfig env = .exit 1 ∧ (ReadConfig env).status = some 1 ∧
      (∀ c, ReadConfig env ≠ .returned c) ∧
      main env = .stopped (.exit 1) ∧ (main env).uploadKey = none) := by
  refine ⟨⟨?_, ?_⟩, ?_, ?_⟩
  · rintro ⟨c, hc⟩
    obtain ⟨l, key, hl, hk, _⟩ := (ReadConfig_returned env c).1 hc
    exact ⟨l, hl, by rw [hk]; rfl⟩
  · rintro ⟨l, hl, hlen⟩
    match hargs : l.args, hlen with
    | [key], _ =>
      obtain ⟨c, hc, _⟩ := ReadConfig_of_one_arg env l key hl hargs
      exact ⟨c, hc⟩
  · intro l key hl hargs
    obtain ⟨c, hc, hkey⟩ := ReadConfig_of_one_arg env l key hl hargs
    refine ⟨c, hc, hkey, ?_⟩
    rw [main_of_returned env c hc, hkey]
  · intro l hl hlen
    have hexit : ReadConfig env = .exit 1 := by
      unfold ReadConfig
      rw [hl]
      exact resolve_exit env.ParseBytes l hlen
    have hmain := main_of_exit env 1 hexit
    refine ⟨hexit, ?_, ?_, hmain, ?_⟩
    · rw [hexit]; rfl
    · intro c hc
      rw [hexit] at hc
      cases hc
    · rw [hmain]; rfl

/-- Witness for C8: the runs with one, with no and with two positional
arguments. -/
theorem ReadConfig_positional_witness :
    (∃ c, ReadConfig plainRun = .returned c ∧ c.OBJECT_KEY = "mykey" ∧
      (main plainRun).uploadKey = some "mykey") ∧
    (ReadConfig noKeyRun = .exit 1 ∧ (main noKeyRun).uploadKey = none) ∧
    (ReadConfig twoKeysRun = .exit 1 ∧ (main twoKeysRun).uploadKey = none) :=
  ⟨(ReadConfig_positional plainRun).2.1 plainLocals "mykey" rfl rfl,
   ⟨((ReadConfig_positional noKeyRun).2.2 noKeyLocals rfl (by decide)).1,
    ((ReadConfig_positional noKeyRun).2.2 noKeyLocals rfl (by decide)).2.2.2.2⟩,
   ⟨((ReadConfig_positional twoKeysRun).2.2 twoKeysLocals rfl (by decide)).1,
    ((ReadConfig_positional twoKeysRun).2.2 twoKeysLocals rfl (by decide)).2.2.2.2⟩⟩

/-- C9: the claim says that without a chunk size in the file and on the command
line the string handed to `ParseChunkSize` is the seeded default `"256MB"`.  In
the run `mykey` with a file that has no `CHUNK_SIZE` key, line 89 has replaced
the seeded string by the empty string of the absent key, so `ParseChunkSize`
receives `""` and the part size is the fallback 268435456, while
`ParseChunkSize "256MB"` is 256000000. -/
theorem ReadConfig_chunk_size_string_at_plainRun :
    Sprintf_dMB_int DEFAULT_CHUNK_SIZE = "256MB" ∧
    sampleFile.main "CHUNK_SIZE" = none ∧
    (noFlags ["mykey"]).chunk_size = none ∧
    mergeSources plainRun = .ok plainLocals ∧
    plainLocals.CHUNK_SIZE = "" ∧
    plainLocals.conf.ESTIMATED = 0 ∧
    ReadConfig plainRun = .returned plainConfig ∧
    plainConfig.CHUNK_SIZE = 268435456 ∧
    ParseChunkSize humanizeParseBytes "" = 268435456 ∧
    ParseChunkSize humanizeParseBytes "256MB" = 256000000 :=
  ⟨by decide, rfl, rfl, rfl, rfl, rfl, rfl, rfl, by decide, by decide⟩

/-- C10: the claim says that a failed load ends in the fatal diagnostic of line
61.  In a run where `ini.Load` returns no file object and an error, line 58
writes a field of the missing file object before the error is looked at, and
`ReadConfig` ends in a nil dereference, not in `log.Fatal`. -/
theorem ReadConfig_at_missing_file :
    (missingFileEnv (noFlags ["mykey"])).Load.file = none ∧
    (missingFileEnv (noFlags ["mykey"])).Load.err
      = some "open z3.conf: no such file or directory" ∧
    ReadConfig (missingFileEnv (noFlags ["mykey"])) = .nilDereference ∧
    ReadConfig (missingFileEnv (noFlags ["mykey"])) ≠ .fatal "Unable to load config file" ∧
    main (missingFileEnv (noFlags ["mykey"])) = .stopped .nilDereference := by
  refine ⟨rfl, rfl, rfl, ?_, rfl⟩
  decide

end Gput
